import Mathlib

/-!
Shallow embedding of `src/main.py` (SocioBerries API).

JSON values returned by the two upstream services are modelled by the
inductive `Json`; numeric JSON values are modelled as rationals (all
arithmetic the endpoint performs on them is exact on the inputs the
claims concern).  Python exceptions raised while the endpoint parses
the payloads are modelled by the `Except PyErr` monad: a missing dict
key raises `KeyError` (carrying the key), while indexing/iterating a
value of the wrong shape raises a `TypeError`-like fault; both abort
the request.  The two scikit-learn predictors are opaque: a `Predictor`
maps the 2-D feature array to a 1-D or 2-D numeric result (`NpResult`),
exactly the two shapes `prediction[0] if prediction.ndim == 1 else
prediction[0][0]` distinguishes.  The endpoint's two network fetches
are inputs (`FetchResult`): `raise_for_status` turns a non-2xx upstream
status into the `httpError` outcome that the handler maps to an
`HTTPException` carrying that status.
-/

namespace SocioBerries

/-- A Python exception raised during payload parsing or inference. -/
inductive PyErr where
  | keyError (k : String)
  | typeError
  | indexError
deriving DecidableEq

/-- JSON-like values, as returned by `response.json()`. -/
inductive Json where
  | num (q : Rat)
  | str (s : String)
  | bool (b : Bool)
  | null
  | arr (xs : List Json)
  | obj (fields : List (String × Json))

/-- Dict indexing `j[k]`: `KeyError` when the key is absent,
`TypeError` when `j` is not a dict. -/
def Json.lookup (j : Json) (k : String) : Except PyErr Json :=
  match j with
  | .obj fs =>
    match fs.find? (fun p => p.1 == k) with
    | some p => .ok p.2
    | none => .error (.keyError k)
  | _ => .error .typeError

/-- Dict access `j.get(k, d)` with a default. -/
def Json.getD (j : Json) (k : String) (d : Json) : Except PyErr Json :=
  match j with
  | .obj fs =>
    match fs.find? (fun p => p.1 == k) with
    | some p => .ok p.2
    | none => .ok d
  | _ => .error .typeError

/-- Whether a dict carries the key (`k in j`). -/
def Json.hasKey (j : Json) (k : String) : Bool :=
  match j with
  | .obj fs => fs.any (fun p => p.1 == k)
  | _ => false

/-- Iterating a JSON value as a list. -/
def Json.asArr (j : Json) : Except PyErr (List Json) :=
  match j with
  | .arr xs => .ok xs
  | _ => .error .typeError

/-- Using a JSON value as a string (e.g. calling `.endswith` on it). -/
def Json.asStr (j : Json) : Except PyErr String :=
  match j with
  | .str s => .ok s
  | _ => .error .typeError

/-- Python `s.endswith(p)`: `p` is a (character-wise) suffix of `s`. -/
def pyEndsWith (s p : String) : Bool :=
  p.data.isSuffixOf s.data

/-- Python `==` between a JSON value and a string literal: true exactly
for the equal string, false (not an error) on any other value. -/
def pyEqStr (j : Json) (s : String) : Bool :=
  match j with
  | .str t => t == s
  | _ => false

/-- Python `int(x)` on a JSON number (truncation toward zero). -/
def pyInt (j : Json) : Except PyErr Int :=
  match j with
  | .num q => .ok (q.num.tdiv q.den)
  | _ => .error .typeError

/-- Using a JSON value as a numeric scalar. -/
def pyFloat (j : Json) : Except PyErr Rat :=
  match j with
  | .num q => .ok q
  | _ => .error .typeError

/-- The four running totals of the aggregation loop (lines 78-90). -/
structure PostAgg where
  followers : Int
  likes : Int
  comments : Int
  posts : Int
deriving DecidableEq

/-- Componentwise sum of aggregation states. -/
def PostAgg.add (a b : PostAgg) : PostAgg :=
  ⟨a.followers + b.followers, a.likes + b.likes,
   a.comments + b.comments, a.posts + b.posts⟩

/-- Body of the inner `for post in resource['data']['posts']` loop
(lines 87-90). -/
def processPost (acc : PostAgg) (p : Json) : Except PyErr PostAgg :=
  match (p.lookup "like_count").bind pyInt with
  | .error e => .error e
  | .ok lc =>
    match (p.lookup "comments").bind Json.asArr with
    | .error e => .error e
    | .ok cs =>
      .ok { acc with likes := acc.likes + lc,
                     comments := acc.comments + (cs.length : Int),
                     posts := acc.posts + 1 }

/-- The inner posts loop, left to right. -/
def processPosts : List Json → PostAgg → Except PyErr PostAgg
  | [], acc => .ok acc
  | p :: ps, acc =>
    match processPost acc p with
    | .error e => .error e
    | .ok acc2 => processPosts ps acc2

/-- Body of the `for resource in user_posts_data['resources']` loop
(lines 83-90): suffix-match the type tag, then accumulate. -/
def processResource (acc : PostAgg) (r : Json) : Except PyErr PostAgg :=
  match (r.lookup "type").bind Json.asStr with
  | .error e => .error e
  | .ok ty =>
    if pyEndsWith ty "::SocialMediaPlatform::Profile" then
      match ((r.lookup "data").bind (fun d => d.lookup "followers_count")).bind pyInt with
      | .error e => .error e
      | .ok n => .ok { acc with followers := acc.followers + n }
    else if pyEndsWith ty "::SocialMediaPlatform::UserPosts" then
      match ((r.lookup "data").bind (fun d => d.lookup "posts")).bind Json.asArr with
      | .error e => .error e
      | .ok posts => processPosts posts acc
    else
      .ok acc

/-- The resource loop, left to right. -/
def processResources : List Json → PostAgg → Except PyErr PostAgg
  | [], acc => .ok acc
  | r :: rs, acc =>
    match processResource acc r with
    | .error e => .error e
    | .ok acc2 => processResources rs acc2

/-- Aggregation over the whole user-posts payload (lines 78-90):
iterate `user_posts_data['resources']` starting from four zero totals. -/
def aggregateUserPosts (user_posts_data : Json) : Except PyErr PostAgg :=
  match (user_posts_data.lookup "resources").bind Json.asArr with
  | .error e => .error e
  | .ok rs => processResources rs ⟨0, 0, 0, 0⟩

/-- Reads `balance['metadata']['symbol']` for one balance record. -/
def symbolOf (b : Json) : Except PyErr Json :=
  (b.lookup "metadata").bind (fun m => m.lookup "symbol")

/-- Whether a balance record's symbol reads successfully. -/
def symbolReadable (b : Json) : Bool :=
  match symbolOf b with
  | .ok _ => true
  | .error _ => false

/-- Whether a balance record is the APT record
(`balance['metadata']['symbol'] == 'APT'`). -/
def isAPT (b : Json) : Bool :=
  match symbolOf b with
  | .ok sym => pyEqStr sym "APT"
  | .error _ => false

/-- The `for balance in coin_balances['latest_balances']` loop
(lines 100-104): net worth starts at 0, the first record whose symbol
equals "APT" sets it to `balance.get('amount_in_usd', 0)` and `break`s. -/
def findNetWorth : List Json → Except PyErr Rat
  | [] => .ok 0
  | b :: bs =>
    match symbolOf b with
    | .error e => .error e
    | .ok sym =>
      if pyEqStr sym "APT" then
        (b.getD "amount_in_usd" (.num 0)).bind pyFloat
      else
        findNetWorth bs

/-- On-chain net worth extraction over the whole balances payload. -/
def extractNetWorth (coin_balances : Json) : Except PyErr Rat :=
  match (coin_balances.lookup "latest_balances").bind Json.asArr with
  | .error e => .error e
  | .ok bs => findNetWorth bs

/-- A numpy `predict` result: a 1-D or a 2-D numeric array. -/
inductive NpResult where
  | one (xs : List Rat)
  | two (rows : List (List Rat))

/-- Scalar reduction `prediction[0] if prediction.ndim == 1 else
prediction[0][0]` (lines 52 and 65); indexing an empty array raises
`IndexError`. -/
def NpResult.toScalar : NpResult → Except PyErr Rat
  | .one [] => .error .indexError
  | .one (x :: _) => .ok x
  | .two [] => .error .indexError
  | .two ([] :: _) => .error .indexError
  | .two ((x :: _) :: _) => .ok x

/-- An opaque trained model: 2-D feature array in, prediction out. -/
def Predictor : Type := List (List Rat) → NpResult

/-- Embeds `calculate_credibility_weight` (lines 49-52). -/
def calculate_credibility_weight (credibility_model : Predictor)
    (onchain_net_worth : Rat) (followers_of_followers : Rat) : Except PyErr Rat :=
  (credibility_model [[onchain_net_worth, followers_of_followers]]).toScalar

/-- The `berries_input` dict built at lines 110-118. -/
structure BerriesInput where
  followers : Int
  likes : Int
  comments : Int
  ads_purchased_from_profile : Int
  average_likes_per_day : Rat
  average_comments_per_day : Rat
  credibility_weight : Rat
deriving DecidableEq

/-- The 1x7 feature array built at lines 55-63, in source order. -/
def berriesFeatures (input_data : BerriesInput) : List (List Rat) :=
  [[(input_data.followers : Rat),
    (input_data.likes : Rat),
    (input_data.comments : Rat),
    (input_data.ads_purchased_from_profile : Rat),
    input_data.average_likes_per_day,
    input_data.average_comments_per_day,
    input_data.credibility_weight]]

/-- Embeds `calculate_berries` (lines 54-65). -/
def calculate_berries (influencer_model : Predictor)
    (input_data : BerriesInput) : Except PyErr Rat :=
  (influencer_model (berriesFeatures input_data)).toScalar

/-- Outcome of one upstream fetch after `raise_for_status`. -/
inductive FetchResult where
  | ok (body : Json)
  | httpError (status : Nat)

/-- Embeds `response.raise_for_status()`: a 2xx response yields its
JSON body, anything else raises `HTTPStatusError` carrying the status. -/
def raise_for_status (status : Nat) (body : Json) : FetchResult :=
  if 200 ≤ status ∧ status ≤ 299 then .ok body else .httpError status

/-- The client-facing failures of the endpoint (lines 128-136):
upstream status propagated; 500 "Unexpected data structure" for a
`KeyError`; 500 "Internal Server Error" for anything else. -/
inductive EndpointError where
  | fetch (status : Nat)
  | malformed (key : String)
  | internal
deriving DecidableEq

/-- The three `except` clauses at lines 128-136, for exceptions raised
inside the handler body. -/
def pyErrToEndpoint : PyErr → EndpointError
  | .keyError k => .malformed k
  | .typeError => .internal
  | .indexError => .internal

/-- Embeds `BerryCalculationOutput` (lines 33-35). -/
structure BerryCalculationOutput where
  credibility_weight : Rat
  berries : Rat
deriving DecidableEq

/-- Embeds `total / total_posts if total_posts > 0 else 0`
(lines 93-94). -/
def avgPerDay (total : Int) (total_posts : Int) : Rat :=
  if 0 < total_posts then (total : Rat) / (total_posts : Rat) else 0

/-- The `berries_input` record the handler passes to `calculate_berries`
(lines 93-94 and 110-118), with the hardcoded
`ads_purchased_from_profile = 10`. -/
def mkBerriesInput (agg : PostAgg) (credibility_weight : Rat) : BerriesInput :=
  { followers := agg.followers,
    likes := agg.likes,
    comments := agg.comments,
    ads_purchased_from_profile := 10,
    average_likes_per_day := avgPerDay agg.likes agg.posts,
    average_comments_per_day := avgPerDay agg.comments agg.posts,
    credibility_weight := credibility_weight }

/-- Embeds `calculate_berries_endpoint` (lines 67-136).  The two fetch
outcomes are inputs; the hardcoded `followers_of_followers = 5000`
feeds the credibility call.  Any Python exception raised while parsing
or predicting is translated by the `except` clauses. -/
def calculate_berries_endpoint (credibility_model influencer_model : Predictor)
    (userPostsFetch coinBalancesFetch : FetchResult) :
    Except EndpointError BerryCalculationOutput :=
  match userPostsFetch with
  | .httpError s => .error (.fetch s)
  | .ok user_posts_data =>
    match aggregateUserPosts user_posts_data with
    | .error e => .error (pyErrToEndpoint e)
    | .ok agg =>
      match coinBalancesFetch with
      | .httpError s => .error (.fetch s)
      | .ok coin_balances =>
        match extractNetWorth coin_balances with
        | .error e => .error (pyErrToEndpoint e)
        | .ok onchain_net_worth =>
          match calculate_credibility_weight credibility_model onchain_net_worth 5000 with
          | .error e => .error (pyErrToEndpoint e)
          | .ok credibility_weight =>
            match calculate_berries influencer_model (mkBerriesInput agg credibility_weight) with
            | .error e => .error (pyErrToEndpoint e)
            | .ok berries => .ok ⟨credibility_weight, berries⟩

/-- Decidable equality of `Except` results, so concrete runs of the
embedded code can be checked by evaluation. -/
instance {ε α : Type} [DecidableEq ε] [DecidableEq α] : DecidableEq (Except ε α) := fun a b =>
  match a, b with
  | Except.ok x, Except.ok y =>
    match decEq x y with
    | isTrue h => isTrue (congrArg Except.ok h)
    | isFalse h => isFalse (fun hh => h (Except.ok.inj hh))
  | Except.error x, Except.error y =>
    match decEq x y with
    | isTrue h => isTrue (congrArg Except.error h)
    | isFalse h => isFalse (fun hh => h (Except.error.inj hh))
  | Except.ok _, Except.error _ => isFalse (fun hh => Except.noConfusion hh)
  | Except.error _, Except.ok _ => isFalse (fun hh => Except.noConfusion hh)

/-- Spec-side reading: a resource the loop classifies as profile-like
(its type tag reads as a string ending in the Profile suffix). -/
def isProfileLike (r : Json) : Bool :=
  match (r.lookup "type").bind Json.asStr with
  | .ok ty => pyEndsWith ty "::SocialMediaPlatform::Profile"
  | .error _ => false

/-- Spec-side reading: the follower count a profile-like resource
carries (`int(resource['data']['followers_count'])`; 0 if unreadable —
a profile-like resource the loop accepts always has it readable). -/
def followerCountOf (r : Json) : Int :=
  match ((r.lookup "data").bind (fun d => d.lookup "followers_count")).bind pyInt with
  | .ok n => n
  | .error _ => 0

/-- Concrete profile-like resource with the given type tag and
follower count. -/
def mkProfile (tag : String) (n : Rat) : Json :=
  .obj [("type", .str tag), ("data", .obj [("followers_count", .num n)])]

/-- Concrete post with a like count and `ncomments` comments. -/
def mkPost (likes : Rat) (ncomments : Nat) : Json :=
  .obj [("like_count", .num likes), ("comments", .arr (List.replicate ncomments .null))]

/-- Concrete posts-like resource holding the given posts. -/
def mkPostsRes (ps : List Json) : Json :=
  .obj [("type", .str "0x1::SocialMediaPlatform::UserPosts"), ("data", .obj [("posts", .arr ps)])]

/-- Concrete balance record; `amt = none` leaves `amount_in_usd` absent. -/
def mkBalance (sym : String) (amt : Option Rat) : Json :=
  .obj (("metadata", .obj [("symbol", .str sym)]) ::
    (match amt with
     | some a => [("amount_in_usd", Json.num a)]
     | none => []))

/-- The spec's end-to-end example user-posts payload: one profile
resource with 120 followers and one posts resource with two posts
(likes 10 and 20, comment lists of lengths 3 and 1). -/
def c8posts : Json :=
  .obj [("resources", .arr
    [mkProfile "0x1::SocialMediaPlatform::Profile" 120,
     mkPostsRes [mkPost 10 3, mkPost 20 1]])]

/-- The spec's end-to-end example balances payload: one APT entry with
`amount_in_usd` 500. -/
def c8balances : Json :=
  .obj [("latest_balances", .arr [mkBalance "APT" (some 500)])]

/-- User-posts payload with two profile-like resources (followers 10
and 20), to probe how multiple profiles aggregate. -/
def c1posts : Json :=
  .obj [("resources", .arr
    [mkProfile "0xA::SocialMediaPlatform::Profile" 10,
     mkProfile "0xB::SocialMediaPlatform::Profile" 20])]

/-- Balances payload with a non-APT entry first, then two APT entries
(USD amounts 500 and 999), to probe first-match order sensitivity. -/
def c2balances : Json :=
  .obj [("latest_balances", .arr
    [mkBalance "USDC" (some 7),
     mkBalance "APT" (some 500),
     mkBalance "APT" (some 999)])]

/-- Malformed user-posts payload: a profile-like resource whose data
dict lacks the `followers_count` key. -/
def c7posts : Json :=
  .obj [("resources", .arr
    [.obj [("type", .str "0x1::SocialMediaPlatform::Profile"), ("data", .obj [])]])]

/-- Malformed balances payload: a balance record without `metadata`. -/
def c7balances : Json :=
  .obj [("latest_balances", .arr [.obj []])]

/-- User-posts payload with no profile-like resource, only a posts
resource with one post (10 likes, 3 comments). -/
def c9posts : Json :=
  .obj [("resources", .arr [mkPostsRes [mkPost 10 3]])]

/-- A stub predictor returning the same result on every feature array. -/
def constPred (r : NpResult) : Predictor := fun _ => r

/-- Balances payload whose first APT entry lacks `amount_in_usd` while
a later APT entry carries 999. -/
def c10balances : Json :=
  .obj [("latest_balances", .arr
    [mkBalance "USDC" (some 7),
     mkBalance "APT" none,
     mkBalance "APT" (some 999)])]

theorem PostAgg.add_zeroAgg (a : PostAgg) : a.add ⟨0, 0, 0, 0⟩ = a := by
  cases a; simp [PostAgg.add]

theorem PostAgg.addAssoc (a b c : PostAgg) : (a.add b).add c = a.add (b.add c) := by
  cases a; cases b; cases c; simp [PostAgg.add, Int.add_assoc]

theorem processPost_shift (acc : PostAgg) (p : Json) :
    processPost acc p = (processPost ⟨0, 0, 0, 0⟩ p).map (fun d => acc.add d) := by
  unfold processPost
  cases (p.lookup "like_count").bind pyInt with
  | error e => rfl
  | ok lc =>
    cases (p.lookup "comments").bind Json.asArr with
    | error e => rfl
    | ok cs => cases acc; simp [Except.map, PostAgg.add]

theorem processPosts_shift (ps : List Json) :
    ∀ acc, processPosts ps acc = (processPosts ps ⟨0, 0, 0, 0⟩).map (fun d => acc.add d) := by
  induction ps with
  | nil =>
    intro acc
    simp [processPosts, Except.map, PostAgg.add_zeroAgg]
  | cons p ps ih =>
    intro acc
    simp only [processPosts]
    rw [processPost_shift acc p]
    cases h : processPost ⟨0, 0, 0, 0⟩ p with
    | error e => rfl
    | ok b =>
      simp only [Except.map]
      rw [ih (acc.add b), ih b]
      cases processPosts ps ⟨0, 0, 0, 0⟩ with
      | error e => rfl
      | ok d => simp [Except.map, PostAgg.addAssoc]

theorem processResource_shift (acc : PostAgg) (r : Json) :
    processResource acc r = (processResource ⟨0, 0, 0, 0⟩ r).map (fun d => acc.add d) := by
  unfold processResource
  cases (r.lookup "type").bind Json.asStr with
  | error e => rfl
  | ok ty =>
    cases hp : pyEndsWith ty "::SocialMediaPlatform::Profile" with
    | true =>
      simp only [hp, eq_self_iff_true, if_true]
      cases ((r.lookup "data").bind (fun d => d.lookup "followers_count")).bind pyInt with
      | error e => rfl
      | ok n => cases acc; simp [Except.map, PostAgg.add]
    | false =>
      simp only [hp, Bool.false_eq_true, if_false]
      cases hq : pyEndsWith ty "::SocialMediaPlatform::UserPosts" with
      | true =>
        simp only [hq, eq_self_iff_true, if_true]
        cases ((r.lookup "data").bind (fun d => d.lookup "posts")).bind Json.asArr with
        | error e => rfl
        | ok posts => exact processPosts_shift posts acc
      | false =>
        simp only [hq, Bool.false_eq_true, if_false]
        simp [Except.map, PostAgg.add_zeroAgg]

theorem processResources_shift (rs : List Json) :
    ∀ acc, processResources rs acc = (processResources rs ⟨0, 0, 0, 0⟩).map (fun d => acc.add d) := by
  induction rs with
  | nil =>
    intro acc
    simp [processResources, Except.map, PostAgg.add_zeroAgg]
  | cons r rs ih =>
    intro acc
    simp only [processResources]
    rw [processResource_shift acc r]
    cases h : processResource ⟨0, 0, 0, 0⟩ r with
    | error e => rfl
    | ok b =>
      simp only [Except.map]
      rw [ih (acc.add b), ih b]
      cases processResources rs ⟨0, 0, 0, 0⟩ with
      | error e => rfl
      | ok d => simp [Except.map, PostAgg.addAssoc]

theorem processResources_append (rs1 rs2 : List Json) :
    ∀ acc, processResources (rs1 ++ rs2) acc =
      match processResources rs1 acc with
      | .error e => .error e
      | .ok d => processResources rs2 d := by
  induction rs1 with
  | nil => intro acc; rfl
  | cons r rs ih =>
    intro acc
    simp only [List.cons_append, processResources]
    cases processResource acc r with
    | error e => rfl
    | ok acc2 => exact ih acc2

theorem processPost_followers (acc : PostAgg) (p : Json) (a : PostAgg)
    (h : processPost acc p = .ok a) : a.followers = acc.followers := by
  unfold processPost at h
  cases hl : (p.lookup "like_count").bind pyInt with
  | error e => rw [hl] at h; simp at h
  | ok lc =>
    rw [hl] at h
    cases hc : (p.lookup "comments").bind Json.asArr with
    | error e => rw [hc] at h; simp at h
    | ok cs =>
      rw [hc] at h
      injection h with h
      subst h
      rfl

theorem processPosts_followers (ps : List Json) :
    ∀ acc a, processPosts ps acc = .ok a → a.followers = acc.followers := by
  induction ps with
  | nil =>
    intro acc a h
    injection h with h
    subst h
    rfl
  | cons p ps ih =>
    intro acc a h
    simp only [processPosts] at h
    cases hp : processPost acc p with
    | error e => rw [hp] at h; simp at h
    | ok b =>
      rw [hp] at h
      exact (ih b a h).trans (processPost_followers acc p b hp)

theorem processResource_followers (acc : PostAgg) (r : Json) (a : PostAgg)
    (h : processResource acc r = .ok a) :
    a.followers = acc.followers + (if isProfileLike r then followerCountOf r else 0) := by
  unfold processResource at h
  cases hty : (r.lookup "type").bind Json.asStr with
  | error e => rw [hty] at h; simp at h
  | ok ty =>
    rw [hty] at h
    have hclass : isProfileLike r = pyEndsWith ty "::SocialMediaPlatform::Profile" := by
      unfold isProfileLike
      rw [hty]
    cases hp : pyEndsWith ty "::SocialMediaPlatform::Profile" with
    | true =>
      simp only [hp, eq_self_iff_true, if_true] at h
      cases hf : ((r.lookup "data").bind (fun d => d.lookup "followers_count")).bind pyInt with
      | error e => rw [hf] at h; simp at h
      | ok n =>
        rw [hf] at h
        injection h with h
        subst h
        have hn : followerCountOf r = n := by
          unfold followerCountOf
          rw [hf]
        simp [hclass, hp, hn]
    | false =>
      simp only [hp, Bool.false_eq_true, if_false] at h
      cases hq : pyEndsWith ty "::SocialMediaPlatform::UserPosts" with
      | true =>
        simp only [hq, eq_self_iff_true, if_true] at h
        cases hps : ((r.lookup "data").bind (fun d => d.lookup "posts")).bind Json.asArr with
        | error e => rw [hps] at h; simp at h
        | ok posts =>
          rw [hps] at h
          have := processPosts_followers posts acc a h
          simp [hclass, hp, this]
      | false =>
        simp only [hq, Bool.false_eq_true, if_false] at h
        injection h with h
        subst h
        simp [hclass, hp]

theorem run_followers (rs : List Json) :
    ∀ acc agg, processResources rs acc = .ok agg →
    agg.followers = acc.followers + ((rs.filter isProfileLike).map followerCountOf).sum := by
  induction rs with
  | nil =>
    intro acc agg h
    injection h with h
    subst h
    simp
  | cons r rs ih =>
    intro acc agg h
    simp only [processResources] at h
    cases hr : processResource acc r with
    | error e => rw [hr] at h; simp at h
    | ok acc2 =>
      rw [hr] at h
      have h2 := ih acc2 agg h
      have h3 := processResource_followers acc r acc2 hr
      by_cases hp : isProfileLike r
      · simp only [List.filter_cons, hp, if_true, List.map_cons, List.sum_cons]
        rw [h2, h3]
        simp [hp]
        omega
      · simp only [List.filter_cons, hp, Bool.false_eq_true, if_false]
        rw [h2, h3]
        simp [hp]

theorem findNetWorth_cons_skip (x : Json) (bs : List Json)
    (h1 : symbolReadable x = true) (h2 : isAPT x = false) :
    findNetWorth (x :: bs) = findNetWorth bs := by
  simp only [symbolReadable] at h1
  simp only [isAPT] at h2
  simp only [findNetWorth]
  cases hs : symbolOf x with
  | error e => rw [hs] at h1; simp at h1
  | ok sym =>
    rw [hs] at h2
    simp only at h2
    simp only [h2, Bool.false_eq_true, if_false]

theorem findNetWorth_skip (pre : List Json) (bs : List Json)
    (hpre : ∀ x ∈ pre, symbolReadable x = true ∧ isAPT x = false) :
    findNetWorth (pre ++ bs) = findNetWorth bs := by
  induction pre with
  | nil => rfl
  | cons x pre ih =>
    have hx := hpre x (by simp)
    simp only [List.cons_append]
    rw [findNetWorth_cons_skip x (pre ++ bs) hx.1 hx.2]
    exact ih (fun y hy => hpre y (List.mem_cons_of_mem x hy))

theorem findNetWorth_first (b : Json) (rest : List Json) (hb : isAPT b = true) :
    findNetWorth (b :: rest) = (b.getD "amount_in_usd" (.num 0)).bind pyFloat := by
  simp only [isAPT] at hb
  simp only [findNetWorth]
  cases hs : symbolOf b with
  | error e => rw [hs] at hb; simp at hb
  | ok sym =>
    rw [hs] at hb
    simp only at hb
    simp only [hb, eq_self_iff_true, if_true]

theorem lookup_ok_obj (j : Json) (k : String) (v : Json) (h : j.lookup k = .ok v) :
    ∃ fs, j = Json.obj fs := by
  cases j with
  | obj fs => exact ⟨fs, rfl⟩
  | num q => simp [Json.lookup] at h
  | str s => simp [Json.lookup] at h
  | bool b => simp [Json.lookup] at h
  | null => simp [Json.lookup] at h
  | arr xs => simp [Json.lookup] at h

theorem find?_none_of_not_hasKey (fs : List (String × Json)) (k : String)
    (h : Json.hasKey (.obj fs) k = false) :
    fs.find? (fun p => p.1 == k) = none := by
  simp only [Json.hasKey] at h
  cases hf : fs.find? (fun p => p.1 == k) with
  | none => rfl
  | some pr =>
    have h1 := List.find?_some hf
    have h2 := List.mem_of_find?_eq_some hf
    have h3 : fs.any (fun p => p.1 == k) = true := List.any_eq_true.mpr ⟨pr, h2, h1⟩
    rw [h3] at h
    cases h

theorem getD_of_not_hasKey (fs : List (String × Json)) (k : String) (d : Json)
    (h : Json.hasKey (.obj fs) k = false) : Json.getD (.obj fs) k d = .ok d := by
  simp only [Json.getD]
  rw [find?_none_of_not_hasKey fs k h]

theorem lookup_of_not_hasKey (fs : List (String × Json)) (k : String)
    (h : Json.hasKey (.obj fs) k = false) :
    Json.lookup (.obj fs) k = .error (.keyError k) := by
  simp only [Json.lookup]
  rw [find?_none_of_not_hasKey fs k h]

theorem isAPT_obj (b : Json) (h : isAPT b = true) : ∃ fs, b = Json.obj fs := by
  unfold isAPT at h
  cases hs : symbolOf b with
  | error e => rw [hs] at h; simp at h
  | ok sym =>
    unfold symbolOf at hs
    cases hm : b.lookup "metadata" with
    | error e => rw [hm] at hs; simp [Except.bind] at hs
    | ok m => exact lookup_ok_obj b "metadata" m hm

theorem aggregateUserPosts_run (p : Json) (rs : List Json)
    (h : p.lookup "resources" = .ok (.arr rs)) :
    aggregateUserPosts p = processResources rs ⟨0, 0, 0, 0⟩ := by
  unfold aggregateUserPosts
  rw [h]
  rfl

theorem extractNetWorth_run (p : Json) (bs : List Json)
    (h : p.lookup "latest_balances" = .ok (.arr bs)) :
    extractNetWorth p = findNetWorth bs := by
  unfold extractNetWorth
  rw [h]
  rfl

theorem endpoint_run (credM inflM : Predictor) (pJ bJ : Json) (agg : PostAgg) (nw : Rat)
    (h1 : aggregateUserPosts pJ = .ok agg) (h2 : extractNetWorth bJ = .ok nw) :
    calculate_berries_endpoint credM inflM (.ok pJ) (.ok bJ) =
      match (credM [[nw, 5000]]).toScalar with
      | .error e => .error (pyErrToEndpoint e)
      | .ok cw =>
        match (inflM (berriesFeatures (mkBerriesInput agg cw))).toScalar with
        | .error e => .error (pyErrToEndpoint e)
        | .ok berries => .ok ⟨cw, berries⟩ := by
  simp only [calculate_berries_endpoint, h1, h2, calculate_credibility_weight, calculate_berries]

/-- C1 (counterexample): on a payload with two profile-like resources
(follower counts 10 and 20), the loop's `+=` yields total followers 30,
not the last resource's 20 — "last value wins" is false. -/
theorem c1_counterexample :
    aggregateUserPosts c1posts = .ok ⟨30, 0, 0, 0⟩ ∧
    followerCountOf (mkProfile "0xB::SocialMediaPlatform::Profile" 20) = 20 ∧
    (30 : Int) ≠ 20 := by
  refine ⟨by decide, by decide, by decide⟩

/-- C1 (amended): for every resources collection, the aggregated total
followers equals the SUM of the follower counts of all profile-like
resources (the loop accumulates with `+=`, it does not overwrite). -/
theorem c1_theorem (p : Json) (rs : List Json) (agg : PostAgg)
    (h1 : p.lookup "resources" = .ok (.arr rs))
    (h2 : aggregateUserPosts p = .ok agg) :
    agg.followers = ((rs.filter isProfileLike).map followerCountOf).sum := by
  rw [aggregateUserPosts_run p rs h1] at h2
  have h3 := run_followers rs ⟨0, 0, 0, 0⟩ agg h2
  simpa using h3

/-- Witness for C1 (amended) at the two-profile payload. -/
theorem c1_theorem_witness :
    c1posts.lookup "resources" = .ok (.arr
      [mkProfile "0xA::SocialMediaPlatform::Profile" 10,
       mkProfile "0xB::SocialMediaPlatform::Profile" 20]) ∧
    aggregateUserPosts c1posts = .ok ⟨30, 0, 0, 0⟩ ∧
    (PostAgg.mk 30 0 0 0).followers =
      (([mkProfile "0xA::SocialMediaPlatform::Profile" 10,
         mkProfile "0xB::SocialMediaPlatform::Profile" 20].filter isProfileLike).map
        followerCountOf).sum :=
  ⟨by rfl, by decide,
   c1_theorem c1posts
     [mkProfile "0xA::SocialMediaPlatform::Profile" 10,
      mkProfile "0xB::SocialMediaPlatform::Profile" 20]
     ⟨30, 0, 0, 0⟩ (by rfl) (by decide)⟩

/-- C2: the on-chain net worth is the `amount_in_usd` (default 0) of
the first balance record in iteration order whose symbol is "APT",
independent of everything after it; with no APT record it is 0. -/
theorem c2_theorem :
    (∀ (p : Json) (pre rest : List Json) (b : Json),
      p.lookup "latest_balances" = .ok (.arr (pre ++ b :: rest)) →
      (∀ x ∈ pre, symbolReadable x = true ∧ isAPT x = false) →
      isAPT b = true →
      extractNetWorth p = (b.getD "amount_in_usd" (.num 0)).bind pyFloat) ∧
    (∀ (p : Json) (bs : List Json),
      p.lookup "latest_balances" = .ok (.arr bs) →
      (∀ x ∈ bs, symbolReadable x = true ∧ isAPT x = false) →
      extractNetWorth p = .ok 0) := by
  constructor
  · intro p pre rest b h1 h2 h3
    rw [extractNetWorth_run p _ h1, findNetWorth_skip pre (b :: rest) h2,
      findNetWorth_first b rest h3]
  · intro p bs h1 h2
    rw [extractNetWorth_run p _ h1]
    have h3 : findNetWorth (bs ++ []) = findNetWorth [] := findNetWorth_skip bs [] h2
    simpa using h3

/-- Witness for C2 at a payload with a non-APT record first and two APT
records: the first APT record (500) wins over the later one (999). -/
theorem c2_theorem_witness :
    c2balances.lookup "latest_balances" = .ok (.arr
      ([mkBalance "USDC" (some 7)] ++ mkBalance "APT" (some 500) :: [mkBalance "APT" (some 999)])) ∧
    isAPT (mkBalance "APT" (some 500)) = true ∧
    extractNetWorth c2balances =
      ((mkBalance "APT" (some 500)).getD "amount_in_usd" (.num 0)).bind pyFloat ∧
    extractNetWorth c2balances = .ok 500 :=
  ⟨by rfl, by decide,
   c2_theorem.1 c2balances [mkBalance "USDC" (some 7)] [mkBalance "APT" (some 999)]
     (mkBalance "APT" (some 500)) (by rfl) (by decide) (by decide),
   by decide⟩

/-- C3: when the aggregated post counter is 0, both per-day averages in
the influencer input are exactly 0 (the guard avoids the division). -/
theorem c3_theorem (agg : PostAgg) (cw : Rat) (h : agg.posts = 0) :
    (mkBerriesInput agg cw).average_likes_per_day = 0 ∧
    (mkBerriesInput agg cw).average_comments_per_day = 0 := by
  simp [mkBerriesInput, avgPerDay, h]

/-- Witness for C3 at a zero-post aggregation state. -/
theorem c3_theorem_witness :
    (PostAgg.mk 5 0 0 0).posts = 0 ∧
    (mkBerriesInput ⟨5, 0, 0, 0⟩ 3).average_likes_per_day = 0 ∧
    (mkBerriesInput ⟨5, 0, 0, 0⟩ 3).average_comments_per_day = 0 :=
  ⟨rfl, (c3_theorem ⟨5, 0, 0, 0⟩ 3 rfl).1, (c3_theorem ⟨5, 0, 0, 0⟩ 3 rfl).2⟩

/-- C4: with any credibility predictor that always yields the scalar V,
the 1x7 influencer feature row is exactly [followers, likes, comments,
10, avg-likes/day, avg-comments/day, V] — its 7th element is V — and the
endpoint's remaining work is exactly the influencer inference on that
row, so the credibility inference completes before the row is built. -/
theorem c4_theorem (credM inflM : Predictor) (V : Rat) (pJ bJ : Json)
    (agg : PostAgg) (nw : Rat)
    (hcred : ∀ x, (credM x).toScalar = .ok V)
    (h1 : aggregateUserPosts pJ = .ok agg)
    (h2 : extractNetWorth bJ = .ok nw) :
    berriesFeatures (mkBerriesInput agg V) =
      [[(agg.followers : Rat), (agg.likes : Rat), (agg.comments : Rat), 10,
        avgPerDay agg.likes agg.posts, avgPerDay agg.comments agg.posts, V]] ∧
    ((berriesFeatures (mkBerriesInput agg V)).headD []).getD 6 0 = V ∧
    calculate_berries_endpoint credM inflM (.ok pJ) (.ok bJ) =
      match (inflM (berriesFeatures (mkBerriesInput agg V))).toScalar with
      | .error e => .error (pyErrToEndpoint e)
      | .ok berries => .ok ⟨V, berries⟩ := by
  refine ⟨by norm_num [berriesFeatures, mkBerriesInput], rfl, ?_⟩
  rw [endpoint_run credM inflM pJ bJ agg nw h1 h2, hcred [[nw, 5000]]]

/-- Witness for C4: a constant credibility predictor returning 7 makes
the 7th feature 7, and the endpoint output is the influencer result. -/
theorem c4_theorem_witness :
    (∀ x, (constPred (NpResult.one [7]) x).toScalar = .ok 7) ∧
    aggregateUserPosts c8posts = .ok ⟨120, 30, 4, 2⟩ ∧
    extractNetWorth c8balances = .ok 500 ∧
    ((berriesFeatures (mkBerriesInput ⟨120, 30, 4, 2⟩ 7)).headD []).getD 6 0 = 7 ∧
    calculate_berries_endpoint (constPred (NpResult.one [7])) (constPred (NpResult.two [[9]]))
      (.ok c8posts) (.ok c8balances) = .ok ⟨7, 9⟩ := by
  have h := c4_theorem (constPred (NpResult.one [7])) (constPred (NpResult.two [[9]])) 7
    c8posts c8balances ⟨120, 30, 4, 2⟩ 500 (fun x => rfl) (by decide) (by decide)
  refine ⟨fun x => rfl, by decide, by decide, h.2.1, ?_⟩
  rw [h.2.2]
  rfl

/-- C5: in both inference wrappers, a 2-D single-row/single-column
prediction [[v]] reduces to the same scalar as a 1-D single-element
prediction [v], namely v itself. -/
theorem c5_theorem (v onchain_net_worth followers_of_followers : Rat)
    (input_data : BerriesInput) :
    calculate_credibility_weight (fun _ => .two [[v]]) onchain_net_worth followers_of_followers =
      calculate_credibility_weight (fun _ => .one [v]) onchain_net_worth followers_of_followers ∧
    calculate_berries (fun _ => .two [[v]]) input_data =
      calculate_berries (fun _ => .one [v]) input_data ∧
    calculate_credibility_weight (fun _ => .one [v]) onchain_net_worth followers_of_followers =
      .ok v ∧
    calculate_berries (fun _ => .two [[v]]) input_data = .ok v :=
  ⟨rfl, rfl, rfl, rfl⟩

/-- C6: a non-2xx upstream status surfaces through `raise_for_status`
as an endpoint error carrying that very status code — for the posts
fetch unconditionally, and for the balances fetch once the posts
payload aggregated — and the endpoint never returns success then. -/
theorem c6_theorem (s : Nat) (body : Json) (credM inflM : Predictor)
    (bf : FetchResult) (pJ : Json) (agg : PostAgg)
    (hs : ¬(200 ≤ s ∧ s ≤ 299)) :
    raise_for_status s body = .httpError s ∧
    calculate_berries_endpoint credM inflM (raise_for_status s body) bf = .error (.fetch s) ∧
    (∀ out, calculate_berries_endpoint credM inflM (raise_for_status s body) bf ≠ .ok out) ∧
    (aggregateUserPosts pJ = .ok agg →
      calculate_berries_endpoint credM inflM (.ok pJ) (raise_for_status s body) =
        .error (.fetch s) ∧
      ∀ out, calculate_berries_endpoint credM inflM (.ok pJ) (raise_for_status s body) ≠
        .ok out) := by
  have hr : raise_for_status s body = .httpError s := by
    unfold raise_for_status
    rw [if_neg hs]
  refine ⟨hr, ?_, ?_, ?_⟩
  · rw [hr]
    rfl
  · intro out
    rw [hr]
    simp [calculate_berries_endpoint]
  · intro hagg
    constructor
    · rw [hr]
      simp [calculate_berries_endpoint, hagg]
    · intro out
      rw [hr]
      simp [calculate_berries_endpoint, hagg]

/-- Witness for C6 at upstream status 404 for either fetch. -/
theorem c6_theorem_witness :
    ¬(200 ≤ 404 ∧ 404 ≤ 299) ∧
    aggregateUserPosts c8posts = .ok ⟨120, 30, 4, 2⟩ ∧
    calculate_berries_endpoint (constPred (NpResult.one [0])) (constPred (NpResult.one [0]))
      (raise_for_status 404 Json.null) (.ok c8balances) = .error (.fetch 404) ∧
    calculate_berries_endpoint (constPred (NpResult.one [0])) (constPred (NpResult.one [0]))
      (.ok c8posts) (raise_for_status 404 Json.null) = .error (.fetch 404) := by
  have h := c6_theorem 404 Json.null (constPred (NpResult.one [0])) (constPred (NpResult.one [0]))
    (.ok c8balances) c8posts ⟨120, 30, 4, 2⟩ (by decide)
  exact ⟨by decide, by decide, h.2.1, (h.2.2.2 (by decide)).1⟩

/-- C7: a missing expected key while parsing either payload raises
`KeyError`, which the endpoint maps to the distinguishable server-side
"malformed upstream data" error (500, `Unexpected data structure`),
never to a success with zeroed fields; on a dict, a missing key is
exactly what produces that `KeyError`. -/
theorem c7_theorem (credM inflM : Predictor) (pJ bJ : Json) (k : String) :
    (aggregateUserPosts pJ = .error (.keyError k) →
      calculate_berries_endpoint credM inflM (.ok pJ) (.ok bJ) = .error (.malformed k) ∧
      ∀ out, calculate_berries_endpoint credM inflM (.ok pJ) (.ok bJ) ≠ .ok out) ∧
    (∀ agg, aggregateUserPosts pJ = .ok agg →
      extractNetWorth bJ = .error (.keyError k) →
      calculate_berries_endpoint credM inflM (.ok pJ) (.ok bJ) = .error (.malformed k) ∧
      ∀ out, calculate_berries_endpoint credM inflM (.ok pJ) (.ok bJ) ≠ .ok out) ∧
    (∀ fs, Json.hasKey (.obj fs) k = false →
      Json.lookup (.obj fs) k = .error (.keyError k)) := by
  refine ⟨?_, ?_, fun fs h => lookup_of_not_hasKey fs k h⟩
  · intro h
    constructor
    · simp [calculate_berries_endpoint, h, pyErrToEndpoint]
    · intro out
      simp [calculate_berries_endpoint, h, pyErrToEndpoint]
  · intro agg h1 h2
    constructor
    · simp [calculate_berries_endpoint, h1, h2, pyErrToEndpoint]
    · intro out
      simp [calculate_berries_endpoint, h1, h2, pyErrToEndpoint]

/-- Witness for C7: a profile resource whose data dict lacks
`followers_count` turns into the malformed-data error. -/
theorem c7_theorem_witness :
    aggregateUserPosts c7posts = .error (.keyError "followers_count") ∧
    calculate_berries_endpoint (constPred (NpResult.one [0])) (constPred (NpResult.one [0]))
      (.ok c7posts) (.ok c8balances) = .error (.malformed "followers_count") ∧
    Json.hasKey (.obj [("type", .str "x")]) "followers_count" = false ∧
    Json.lookup (.obj [("type", .str "x")]) "followers_count" =
      .error (.keyError "followers_count") :=
  ⟨by decide,
   ((c7_theorem (constPred (NpResult.one [0])) (constPred (NpResult.one [0]))
      c7posts c8balances "followers_count").1 (by decide)).1,
   by decide,
   (c7_theorem (constPred (NpResult.one [0])) (constPred (NpResult.one [0]))
      c7posts c8balances "followers_count").2.2 [("type", .str "x")] (by decide)⟩

/-- C8: the spec's end-to-end example — profile with 120 followers,
two posts with likes 10 and 20 and comment lists of lengths 3 and 1 —
aggregates to (120, 30, 4, 2) with per-day averages 15 and 2, and the
single-APT balances payload with amount 500 gives net worth 500. -/
theorem c8_theorem :
    aggregateUserPosts c8posts = .ok ⟨120, 30, 4, 2⟩ ∧
    avgPerDay 30 2 = 15 ∧
    avgPerDay 4 2 = 2 ∧
    (mkBerriesInput ⟨120, 30, 4, 2⟩ 0).average_likes_per_day = 15 ∧
    (mkBerriesInput ⟨120, 30, 4, 2⟩ 0).average_comments_per_day = 2 ∧
    extractNetWorth c8balances = .ok 500 := by
  refine ⟨by decide, ?_, ?_, ?_, ?_, by decide⟩ <;> norm_num [mkBerriesInput, avgPerDay]

/-- C9: a payload without any profile-like resource still aggregates
(followers 0) and the request succeeds end to end; and the aggregation
over a concatenation of resource lists is the componentwise sum of the
two aggregations, so several posts-like resources sum together. -/
theorem c9_theorem :
    (∀ (p : Json) (rs : List Json) (agg : PostAgg),
      p.lookup "resources" = .ok (.arr rs) →
      (∀ r ∈ rs, isProfileLike r = false) →
      aggregateUserPosts p = .ok agg →
      agg.followers = 0) ∧
    (∀ (credM inflM : Predictor) (pJ bJ : Json) (agg : PostAgg) (nw cw berries : Rat),
      aggregateUserPosts pJ = .ok agg →
      extractNetWorth bJ = .ok nw →
      (credM [[nw, 5000]]).toScalar = .ok cw →
      (inflM (berriesFeatures (mkBerriesInput agg cw))).toScalar = .ok berries →
      calculate_berries_endpoint credM inflM (.ok pJ) (.ok bJ) = .ok ⟨cw, berries⟩) ∧
    (∀ (rs1 rs2 : List Json) (agg : PostAgg),
      processResources (rs1 ++ rs2) ⟨0, 0, 0, 0⟩ = .ok agg →
      ∃ d1 d2, processResources rs1 ⟨0, 0, 0, 0⟩ = .ok d1 ∧
        processResources rs2 ⟨0, 0, 0, 0⟩ = .ok d2 ∧ agg = d1.add d2) := by
  refine ⟨?_, ?_, ?_⟩
  · intro p rs agg h1 h2 h3
    rw [aggregateUserPosts_run p rs h1] at h3
    have h4 := run_followers rs ⟨0, 0, 0, 0⟩ agg h3
    have h5 : rs.filter isProfileLike = [] := by
      rw [List.filter_eq_nil_iff]
      intro a ha
      simp [h2 a ha]
    rw [h5] at h4
    simpa using h4
  · intro credM inflM pJ bJ agg nw cw berries h1 h2 h3 h4
    rw [endpoint_run credM inflM pJ bJ agg nw h1 h2, h3]
    simp [h4]
  · intro rs1 rs2 agg h
    rw [processResources_append rs1 rs2 ⟨0, 0, 0, 0⟩] at h
    cases h1 : processResources rs1 ⟨0, 0, 0, 0⟩ with
    | error e => rw [h1] at h; simp at h
    | ok d1 =>
      rw [h1] at h
      have h3 : processResources rs2 d1 = Except.ok agg := h
      rw [processResources_shift rs2 d1] at h3
      cases h2 : processResources rs2 ⟨0, 0, 0, 0⟩ with
      | error e => rw [h2] at h3; simp [Except.map] at h3
      | ok d2 =>
        rw [h2] at h3
        have h4 : Except.ok (d1.add d2) = Except.ok agg := h3
        injection h4 with h4
        exact ⟨d1, d2, rfl, rfl, h4.symm⟩

/-- Witness for C9 at a profile-free payload: followers aggregate to 0,
the endpoint succeeds, and two posts-like resources sum their totals. -/
theorem c9_theorem_witness :
    aggregateUserPosts c9posts = .ok ⟨0, 10, 3, 1⟩ ∧
    (PostAgg.mk 0 10 3 1).followers = 0 ∧
    calculate_berries_endpoint (constPred (NpResult.one [2])) (constPred (NpResult.one [8]))
      (.ok c9posts) (.ok c8balances) = .ok ⟨2, 8⟩ ∧
    (∃ d1 d2, processResources [mkPostsRes [mkPost 10 3]] ⟨0, 0, 0, 0⟩ = .ok d1 ∧
      processResources [mkPostsRes [mkPost 20 1]] ⟨0, 0, 0, 0⟩ = .ok d2 ∧
      (PostAgg.mk 0 30 4 2) = d1.add d2) :=
  ⟨by decide,
   c9_theorem.1 c9posts [mkPostsRes [mkPost 10 3]] ⟨0, 10, 3, 1⟩ (by rfl) (by decide) (by decide),
   c9_theorem.2.1 (constPred (NpResult.one [2])) (constPred (NpResult.one [8]))
     c9posts c8balances ⟨0, 10, 3, 1⟩ 500 2 8 (by decide) (by decide) rfl rfl,
   c9_theorem.2.2 [mkPostsRes [mkPost 10 3]] [mkPostsRes [mkPost 20 1]] ⟨0, 30, 4, 2⟩ (by decide)⟩

/-- C10: when the first APT record in iteration order lacks
`amount_in_usd`, the net worth is 0, whatever comes after it —
the scan breaks at the first symbol match. -/
theorem c10_theorem (p : Json) (pre rest : List Json) (b : Json)
    (h0 : p.lookup "latest_balances" = .ok (.arr (pre ++ b :: rest)))
    (hpre : ∀ x ∈ pre, symbolReadable x = true ∧ isAPT x = false)
    (hb : isAPT b = true)
    (hno : Json.hasKey b "amount_in_usd" = false) :
    extractNetWorth p = .ok 0 := by
  rw [extractNetWorth_run p _ h0, findNetWorth_skip pre (b :: rest) hpre,
    findNetWorth_first b rest hb]
  obtain ⟨fs, rfl⟩ := isAPT_obj b hb
  rw [getD_of_not_hasKey fs _ _ hno]
  rfl

/-- Witness for C10: first APT record without an amount, later APT
record with amount 999 — net worth is still 0. -/
theorem c10_theorem_witness :
    c10balances.lookup "latest_balances" = .ok (.arr
      ([mkBalance "USDC" (some 7)] ++ mkBalance "APT" none :: [mkBalance "APT" (some 999)])) ∧
    isAPT (mkBalance "APT" none) = true ∧
    Json.hasKey (mkBalance "APT" none) "amount_in_usd" = false ∧
    Json.hasKey (mkBalance "APT" (some 999)) "amount_in_usd" = true ∧
    isAPT (mkBalance "APT" (some 999)) = true ∧
    extractNetWorth c10balances = .ok 0 :=
  ⟨by rfl, by decide, by decide, by decide, by decide,
   c10_theorem c10balances [mkBalance "USDC" (some 7)] [mkBalance "APT" (some 999)]
     (mkBalance "APT" none) (by rfl) (by decide) (by decide) (by decide)⟩

end SocioBerries
